import Mathlib

/-!
Verification of the voyagemath-tutor audio pipeline and session orchestrator.

The definitions below are shallow embeddings of the repository's JavaScript /
TypeScript sources:

* transport base64 codec (client `btoa`/`atob`, server `Buffer.from(_, 'base64')`
  and `Buffer.concat`), bytes modelled as `Nat < 256`, base64 symbols as
  `Nat < 64` with `64` standing for the `=` padding character;
* PCM format codec (`Popup.tsx` `convertPCMToFloat32` and the inline encoder in
  `handleWorkletMessage`), samples modelled as exact rationals — every float
  operation involved (division and multiplication by the power of two 32768,
  `Math.floor`, clamping) is exact on the values that occur, so `ℚ` is a
  faithful carrier;
* the linear-interpolation resampler (`convertPCMToFloat32`, resampling variant);
* the robust frame-counting VAD (`audio-processor.js`);
* the client playback scheduler and barge-in logic (`Popup.tsx`);
* the server session orchestrator (`server/index.js`, current revision with the
  binary chunk combination), with the upstream Gemini sessions and the vision
  model treated as external collaborators whose outcomes are inputs.
-/

namespace VoyageTutor

/-! ## Transport base64 codec

The client produces each audio chunk with `btoa(...)` and the server recombines
chunks with `Buffer.from(chunk, 'base64')` / `Buffer.concat` /
`.toString('base64')`.  We model the byte/symbol level of base64: bytes are
`Nat < 256`, output symbols are sextets `Nat < 64`, and the value `64` encodes
the `=` padding character. -/

/-- Standard base64 encoding of a byte list into sextet symbols (64 = `=` pad). -/
def base64EncodeBytes : List Nat → List Nat
  | [] => []
  | [b0] => [b0 / 4, b0 % 4 * 16, 64, 64]
  | [b0, b1] => [b0 / 4, b0 % 4 * 16 + b1 / 16, b1 % 16 * 4, 64]
  | b0 :: b1 :: b2 :: rest =>
      b0 / 4 :: (b0 % 4 * 16 + b1 / 16) :: (b1 % 16 * 4 + b2 / 64) :: b2 % 64 ::
        base64EncodeBytes rest

/-- Strict base64 decoding: groups of four symbols, padding allowed only in the
final group.  Returns `none` on malformed input. -/
def base64DecodeBytes : List Nat → Option (List Nat)
  | [] => some []
  | c0 :: c1 :: c2 :: c3 :: rest =>
      if c0 < 64 ∧ c1 < 64 then
        if c2 = 64 then
          if c3 = 64 ∧ rest = [] ∧ c1 % 16 = 0 then some [c0 * 4 + c1 / 16] else none
        else if c3 = 64 then
          if c2 < 64 ∧ rest = [] ∧ c2 % 4 = 0 then
            some [c0 * 4 + c1 / 16, c1 % 16 * 16 + c2 / 4]
          else none
        else
          if c2 < 64 ∧ c3 < 64 then
            (base64DecodeBytes rest).map
              (fun bs => (c0 * 4 + c1 / 16) :: (c1 % 16 * 16 + c2 / 4) :: (c2 % 4 * 64 + c3) :: bs)
          else none
      else none
  | _ => none

/-- Binary concatenation of the buffered chunks, as the current
`end_of_utterance` handler performs it: decode every base64 chunk to bytes
(`Buffer.from(base64Chunk, 'base64')`), then concatenate the binary buffers
(`Buffer.concat`). -/
def decodedJoin (chunks : List (List Nat)) : List Nat :=
  (chunks.map (fun c => (base64DecodeBytes c).getD [])).flatten

/-- `combinedAudioData` of the `end_of_utterance` handler: the binary
concatenation of the decoded chunks, re-encoded to base64 for
`sendRealtimeInput` (`combinedBinaryData.toString('base64')`). -/
def combineAudioChunks (chunks : List (List Nat)) : List Nat :=
  base64EncodeBytes (decodedJoin chunks)

/-! ## PCM format codec (`Popup.tsx`)

`convertPCMToFloat32` (non-resampling variant, `Popup.tsx` lines 45–65):
base64 → bytes → `Int16Array` (little endian) → floats, each sample divided by
32768.  The surrounding `try`/`catch` returns `null` on any failure — in
particular an odd byte count makes the `Int16Array` construction throw — which
we model with `Option`.

The inverse lives inline in `handleWorkletMessage` (`audioData` case, lines
126–141): `Math.max(-32768, Math.min(32767, Math.floor(sample * 32768)))`,
serialised back to little-endian byte pairs. -/

/-- Reinterpret a little-endian byte pair as a signed 16-bit integer
(`Int16Array` element / `DataView.getInt16(_, true)`). -/
def toInt16 (lo hi : Nat) : Int :=
  if lo + 256 * hi < 32768 then (lo + 256 * hi : Int) else (lo + 256 * hi : Int) - 65536

/-- `convertPCMToFloat32` after base64 decoding: bytes to normalized samples.
`none` models the `null` return of the `catch` (odd byte count). -/
def bytesToSamples : List Nat → Option (List ℚ)
  | [] => some []
  | [_] => none
  | lo :: hi :: rest =>
      (bytesToSamples rest).map (fun s => ((toInt16 lo hi : ℚ) / 32768) :: s)

/-- `Math.max(-32768, Math.min(32767, x))`. -/
def clampInt16 (x : Int) : Int := max (-32768) (min 32767 x)

/-- One sample of the worklet-message encoder:
`Math.max(-32768, Math.min(32767, Math.floor(sample * 32768)))`. -/
def sampleToInt16 (q : ℚ) : Int := clampInt16 ⌊q * 32768⌋

/-- Serialise one signed 16-bit value back to its little-endian byte pair
(the `Int16Array` / `Uint8Array` buffer view). -/
def int16ToBytes (i : Int) : List Nat :=
  [(i % 65536).toNat % 256, (i % 65536).toNat / 256]

/-- The PCM encoder of `handleWorkletMessage` (`audioData` case): normalized
samples to little-endian 16-bit bytes. -/
def samplesToBytes (samples : List ℚ) : List Nat :=
  (samples.map (fun q => int16ToBytes (sampleToInt16 q))).flatten

/-- Full client-side decode of one server `audio` payload:
base64 decode, then PCM to floats (`convertPCMToFloat32`). -/
def convertPCMToFloat32 (payload : List Nat) : Option (List ℚ) :=
  (base64DecodeBytes payload).bind bytesToSamples

/-! ## Linear-interpolation resampler

`convertPCMToFloat32` (resampling variant, earlier `Popup.tsx` revision lines
99–154), expressed over the decoded sample array: output slot `i` reads source
position `i * sourceRate / targetRate`, splits it into `index` (`Math.floor`)
and `fraction`, fetches the two neighbouring samples (0 when the bounds guard
`index * 2 < bytes.length - 1` fails, which at sample level is `index < n`),
and linearly interpolates.  The output array is allocated with length
`Math.floor(numSourceSamples * targetRate / sourceRate)`. -/

def resample (x : List ℚ) (sourceRate targetRate : ℕ) : List ℚ :=
  let n := x.length
  let outLen := n * targetRate / sourceRate
  (List.range outLen).map (fun i =>
    let sourceIndex : ℚ := (i * sourceRate : ℕ) / (targetRate : ℚ)
    let index : ℕ := i * sourceRate / targetRate
    let fraction : ℚ := sourceIndex - (index : ℚ)
    let sample1 : ℚ := if index < n then x.getD index 0 else 0
    let sample2 : ℚ := if index + 1 < n then x.getD (index + 1) 0 else 0
    sample1 + (sample2 - sample1) * fraction)

/-! ## Voice activity detector (`audio-processor.js`, robust frame-counting VAD)

`process` computes `rms = Math.sqrt(sum / inputData.length)` and compares
`rms > this.speechThreshold`.  For a non-negative threshold this comparison is
equivalent to the squared comparison `thr² · length < sum`, which stays inside
`ℚ` (also correct for the empty frame, where JS compares `NaN > thr = false`).
The rest of `process` is an exact integer/boolean state machine. -/

/-- A captured frame of normalized samples (one 128-sample capture callback). -/
abbrev Frame := List ℚ

/-- `sum += inputData[i] * inputData[i]` over the frame. -/
def sumSquares (f : Frame) : ℚ := (f.map (fun s => s * s)).sum

/-- `rms > this.speechThreshold`, in squared form (exact for `thr ≥ 0`). -/
def isSpeechFrame (thr : ℚ) (f : Frame) : Bool :=
  decide (thr * thr * f.length < sumSquares f)

/-- Events posted to the main thread via `this.port.postMessage`. -/
inductive VadEvent where
  | speechStart
  | speechEnd
  | audioData (frame : Frame)
  deriving DecidableEq

/-- The VAD state fields of `AudioCaptureProcessor`. -/
structure VadState where
  isSpeaking : Bool
  isPaused : Bool
  silentFrameCount : Nat
  deriving DecidableEq

/-- One invocation of `AudioCaptureProcessor.process` on one frame, returning
the new state and the posted messages in order. -/
def vadStep (thr : ℚ) (requiredSilenceFrames : Nat) (s : VadState) (f : Frame) :
    VadState × List VadEvent :=
  if s.isPaused then (s, [])
  else if isSpeechFrame thr f then
    if s.isSpeaking then
      ({ s with silentFrameCount := 0 }, [.audioData f])
    else
      ({ s with isSpeaking := true, silentFrameCount := 0 }, [.speechStart, .audioData f])
  else if s.isSpeaking then
    if requiredSilenceFrames ≤ s.silentFrameCount + 1 then
      ({ s with isSpeaking := false, silentFrameCount := 0 }, [.audioData f, .speechEnd])
    else
      ({ s with silentFrameCount := s.silentFrameCount + 1 }, [.audioData f])
  else (s, [])

/-- Process a sequence of frames, collecting the events of each frame. -/
def vadRun (thr : ℚ) (k : Nat) (s : VadState) : List Frame → VadState × List (List VadEvent)
  | [] => (s, [])
  | f :: rest =>
      let step := vadStep thr k s f
      let run := vadRun thr k step.1 rest
      (run.1, step.2 :: run.2)

/-- The per-frame event trace of a silence run that closes an utterance: audio
is forwarded on every silent frame, and the last one additionally raises
`speechEnd`. -/
def silentTrace : List Frame → List (List VadEvent)
  | [] => []
  | [f] => [[.audioData f, .speechEnd]]
  | f :: rest => [.audioData f] :: silentTrace rest

/-! ## Client playback scheduler and barge-in (`Popup.tsx`, current revision)

State of the popup component relevant to playback: the refs `audioQueueRef`
and `isPlayingRef`, the React state flags, and — to express what happens to
audio already handed to the Web Audio graph — the buffer of the currently
playing `AudioBufferSourceNode`, if any (`playing`).  A chunk is a decoded
`Float32Array`. -/

abbrev Chunk := List ℚ

structure ClientState where
  audioQueue : List Chunk
  isPlaying : Bool
  isTutorSpeaking : Bool
  isAiCurrentlySpeaking : Bool
  isUserSpeaking : Bool
  /-- Buffer of the in-flight `AudioBufferSourceNode`, `none` when idle. -/
  playing : Option Chunk
  deriving DecidableEq

/-- `processPlaybackQueue`: on an empty queue stop and lower the speaking
flags; otherwise shift the head chunk, raise the flags and start a source node
for it (whose `onended` later fires `chunkEnded`). -/
def processPlaybackQueue (s : ClientState) : ClientState :=
  match s.audioQueue with
  | [] =>
      { s with isPlaying := false, isTutorSpeaking := false, isAiCurrentlySpeaking := false }
  | c :: rest =>
      { s with audioQueue := rest, isPlaying := true, isTutorSpeaking := true,
               isAiCurrentlySpeaking := true, playing := some c }

/-- `source.onended`: the in-flight chunk finished on its own; continue with
the next queued chunk. -/
def chunkEnded (s : ClientState) : ClientState :=
  processPlaybackQueue { s with playing := none }

/-- `stopAllPlayback` ("Simplified barge-in logic - just clear the queue"):
empties the queue and lowers the flags.  It does not call `stop()` on the
in-flight source node, so `playing` is untouched. -/
def stopAllPlayback (s : ClientState) : ClientState :=
  { s with audioQueue := [], isPlaying := false, isTutorSpeaking := false,
           isAiCurrentlySpeaking := false }

/-- `handleWorkletMessage`, `speechStart` case: set the user-speaking flag and,
if the tutor is audible, barge in. -/
def onSpeechStart (s : ClientState) : ClientState :=
  let s1 := { s with isUserSpeaking := true }
  if s.isTutorSpeaking || s.isAiCurrentlySpeaking then stopAllPlayback s1 else s1

/-- `handleAudioDataFromServer`, `type === 'audio'` branch: while the user is
speaking the chunk is dropped; otherwise it is decoded
(`convertPCMToFloat32`), enqueued, and playback is started if idle. -/
def onServerAudio (s : ClientState) (payload : List Nat) : ClientState :=
  if s.isUserSpeaking then s
  else
    match convertPCMToFloat32 payload with
    | none => s
    | some c =>
        let s1 := { s with audioQueue := s.audioQueue ++ [c] }
        if s1.isPlaying then s1 else processPlaybackQueue s1

/-! ## Server session orchestrator (`server/index.js`, current revision)

The upstream dialogue session, the vision model and `JSON.parse` are external
collaborators: their outcomes enter the model as explicit inputs.  JSON values
are modelled by an inductive type; a text part carries its raw string together
with the result of `JSON.parse` on it (`none` when parsing throws). -/

/-- A parsed JSON value (the result of a successful `JSON.parse`). -/
inductive Json where
  | null
  | bool (b : Bool)
  | num (n : Int)
  | str (s : String)
  | arr (elems : List Json)
  | obj (fields : List (String × Json))

/-- JS property access `v.key` on a parsed value: a field of an object, and
`undefined` (`none`) on every other non-null value.  (On `null` the access
throws `TypeError`; the handler treats that case separately.) -/
def Json.getField : Json → String → Option Json
  | .obj fields, key => fields.lookup key
  | _, _ => none

/-- `toolCall.tool_use === 'get_screenshot_analysis'`. -/
def isVisionToolCall (v : Json) : Bool :=
  match v.getField "tool_use" with
  | some (.str s) => s = "get_screenshot_analysis"
  | _ => false

/-- The question interpolated into the vision prompt
(`toolCall.question_for_vision_model`; a missing field interpolates as the
string `undefined`). -/
def questionFor (v : Json) : String :=
  match v.getField "question_for_vision_model" with
  | some (.str s) => s
  | _ => "undefined"

/-- A screenshot payload: `{ mimeType, data }` with base64 image data. -/
structure ScreenImage where
  mimeType : String
  data : String
  deriving DecidableEq

/-- One text part of a model response: the raw string and the outcome of
`JSON.parse(part.text)` (`none` when parsing throws). -/
structure TextPart where
  raw : String
  parsed : Option Json

/-- One part of `response.serverContent.modelTurn.parts`. -/
structure Part where
  text : Option TextPart := none
  inlineData : Option String := none

/-- A message delivered to the live-session `onmessage` callback. -/
structure ModelResponse where
  /-- `response.serverContent?.modelTurn?.parts` (`none` when the chain is absent). -/
  modelTurnParts : Option (List Part)
  /-- `response.serverContent?.turnComplete`. -/
  turnComplete : Bool

/-- Outcome of `visionModel.generateContent` + `result.response.text()`. -/
inductive VisionOutcome where
  | ok (analysis : String)
  | error

/-- Observable actions of the orchestrator. -/
inductive SrvEffect where
  | sendAudioToClient (payload : String)
  | sendTurnComplete
  | visionRequest (img : ScreenImage) (question : String)
  | speak (text : String)
  | connectUpstream
  | sendUpstreamAudio (base64Data : List Nat)
  | sendAudioStreamEnd
  deriving DecidableEq

/-- The spoken fallback when a vision tool-call arrives with no pending
screenshot (literal message abbreviated). -/
def noScreenshotMsg : String := "no screenshot available - please share one first"

/-- The spoken apology when the vision model call fails (literal message
abbreviated). -/
def visionFailureMsg : String := "trouble analyzing the screenshot - please retry"

/-- The tail of `handleAudioModelResponse` reached when the text branch falls
through (no text part, or text that parsed as JSON without the recognized tool
shape): forward inline audio if present, then forward `turn_complete` if set. -/
def afterTextEffects (resp : ModelResponse) (part : Part) : List SrvEffect :=
  (match part.inlineData with
   | some d => [.sendAudioToClient d]
   | none => []) ++
  (if resp.turnComplete then [.sendTurnComplete] else [])

/-- `handleAudioModelResponse(response, ws, turnImage)`.  Returns the emitted
effects and the final value of the **local** `turnImage` parameter (JavaScript
passes the session's `turnImage` by value, so assigning `turnImage = null`
inside the function does not write back to the connection state).

Faithful control flow: a text part is first `JSON.parse`d inside `try`; a
parse failure — and the `TypeError` thrown by `null.tool_use` — lands in the
`catch`, which speaks the raw text and returns.  A parsed value whose
`tool_use` is not `get_screenshot_analysis` falls through to the
inline-audio/turn-complete handling.  A recognized tool-call with no pending
image speaks the fallback and returns; with an image it performs one vision
request, then speaks the analysis and sets the local `turnImage` to null
(success) or speaks the apology leaving `turnImage` as is (failure).  When
`parts` is present but empty, `parts[0]` is `undefined` and the `part.text`
access throws, so nothing is emitted (the caller catches). -/
def handleAudioModelResponse (resp : ModelResponse) (turnImage : Option ScreenImage)
    (vision : VisionOutcome) : List SrvEffect × Option ScreenImage :=
  match resp.modelTurnParts with
  | none => (if resp.turnComplete then [.sendTurnComplete] else [], turnImage)
  | some [] => ([], turnImage)
  | some (part :: _) =>
      match part.text with
      | none => (afterTextEffects resp part, turnImage)
      | some t =>
          match t.parsed with
          | none => ([.speak t.raw], turnImage)
          | some .null => ([.speak t.raw], turnImage)
          | some v =>
              if isVisionToolCall v then
                match turnImage with
                | none => ([.speak noScreenshotMsg], none)
                | some img =>
                    match vision with
                    | .ok analysis =>
                        ([.visionRequest img (questionFor v), .speak analysis], none)
                    | .error =>
                        ([.visionRequest img (questionFor v), .speak visionFailureMsg],
                          some img)
              else (afterTextEffects resp part, turnImage)

/-- Per-connection mutable state of the `wss.on('connection')` closure. -/
structure ConnState where
  /-- `turnAudioBuffer`: buffered base64 audio payloads. -/
  turnAudioBuffer : List (List Nat)
  /-- `turnImage`: the pending screenshot. -/
  turnImage : Option ScreenImage
  /-- whether `currentAudioSession` is set. -/
  hasLiveSession : Bool
  deriving DecidableEq

/-- The `onmessage` callback of the live session: it calls
`handleAudioModelResponse(response, ws, turnImage)`, passing the current
`turnImage` **by value**; the handler cannot mutate the connection state, so
the state is returned unchanged. -/
def processModelResponse (s : ConnState) (resp : ModelResponse) (vision : VisionOutcome) :
    ConnState × List SrvEffect :=
  (s, (handleAudioModelResponse resp s.turnImage vision).1)

/-- One parsed client→server WebSocket message (`data.type`). -/
inductive ClientToServerMsg where
  | image (payload : ScreenImage)
  | audio (payload : List Nat)
  | endOfUtterance
  /-- any other `type`: the handler has no matching branch and does nothing. -/
  | unknown

/-- The `ws.on('message')` handler.  `image` overwrites the pending
screenshot; `audio` appends to the utterance buffer; `end_of_utterance` with
an empty buffer returns immediately; otherwise the chunks are combined as
binary (`combineAudioChunks`), the zero-length validation guard returns before
the buffer is cleared, and on the main path the buffer is cleared and the
upstream session is opened and fed the combined audio plus the
`audioStreamEnd` marker. -/
def handleClientMessage (s : ConnState) : ClientToServerMsg → ConnState × List SrvEffect
  | .image p => ({ s with turnImage := some p }, [])
  | .audio p => ({ s with turnAudioBuffer := s.turnAudioBuffer ++ [p] }, [])
  | .endOfUtterance =>
      if s.turnAudioBuffer.isEmpty then (s, [])
      else if (decodedJoin s.turnAudioBuffer).isEmpty then (s, [])
      else
        ({ s with turnAudioBuffer := [], hasLiveSession := true },
          [.connectUpstream, .sendUpstreamAudio (combineAudioChunks s.turnAudioBuffer),
            .sendAudioStreamEnd])
  | .unknown => (s, [])

/-! ## Text-to-speech helper (`speakText`, `server/index.js` lines 310–367)

The entire body sits in one `try`/`catch`; the `catch` only logs.  The three
failure points — `genAI.live.connect` rejecting, the open-polling promise
rejecting (session state observed as `closed`/`error`), and
`ttsSession.sendText` rejecting — are environment outcomes. -/

structure TtsEnv where
  /-- `some msg` when `genAI.live.connect` rejects with that message. -/
  connectError : Option String
  /-- whether the polled session state reaches `open` (`false`: `closed`/`error`). -/
  opens : Bool
  /-- the observed state string when `opens = false`. -/
  failedState : String
  /-- `some msg` when `ttsSession.sendText` rejects. -/
  sendError : Option String

inductive TtsEffect where
  | logError (msg : String)
  | sentTextToModel (text : String)
  deriving DecidableEq

/-- The `try` block of `speakText`: the effects performed before a failure,
and the thrown error if any. -/
def speakTextAttempt (text : String) (env : TtsEnv) : List TtsEffect × Option String :=
  match env.connectError with
  | some e => ([], some e)
  | none =>
      if env.opens then
        match env.sendError with
        | some e => ([], some e)
        | none => ([.sentTextToModel text], none)
      else ([], some ("TTS Session failed to open. State: " ++ env.failedState))

/-- `speakText`: the `try` block wrapped in the `catch`, which logs the error
and returns normally.  The boolean is `true` iff an exception escapes to the
caller. -/
def speakText (text : String) (env : TtsEnv) : List TtsEffect × Bool :=
  match speakTextAttempt text env with
  | (effs, some e) => (effs ++ [.logError e], false)
  | (effs, none) => (effs, false)

end VoyageTutor

namespace VoyageTutor

theorem base64_decode_encode (bs : List Nat) (h : ∀ b ∈ bs, b < 256) :
    base64DecodeBytes (base64EncodeBytes bs) = some bs := by
  induction bs using base64EncodeBytes.induct with
  | case1 => rfl
  | case2 b0 =>
      have h0 : b0 < 256 := h b0 (by simp)
      simp only [base64EncodeBytes, base64DecodeBytes]
      repeat' split
      all_goals simp_all
      all_goals omega
  | case3 b0 b1 =>
      have h0 : b0 < 256 := h b0 (by simp)
      have h1 : b1 < 256 := h b1 (by simp)
      simp only [base64EncodeBytes, base64DecodeBytes]
      repeat' split
      all_goals simp_all
      all_goals omega
  | case4 b0 b1 b2 rest ih =>
      have h0 : b0 < 256 := h b0 (by simp)
      have h1 : b1 < 256 := h b1 (by simp)
      have h2 : b2 < 256 := h b2 (by simp)
      have hrest : ∀ b ∈ rest, b < 256 := fun b hb => h b (by simp [hb])
      simp only [base64EncodeBytes, base64DecodeBytes]
      rw [ih hrest]
      repeat' split
      all_goals simp_all
      all_goals omega

theorem sampleToInt16_roundtrip (lo hi : Nat) (hlo : lo < 256) (hhi : hi < 256) :
    sampleToInt16 ((toInt16 lo hi : ℚ) / 32768) = toInt16 lo hi := by
  have hfloor : (⌊((toInt16 lo hi : ℚ) / 32768) * 32768⌋ : ℤ) = toInt16 lo hi := by
    rw [div_mul_cancel₀]
    · exact Int.floor_intCast _
    · norm_num
  unfold sampleToInt16 clampInt16
  rw [hfloor]
  unfold toInt16
  split <;> omega

theorem int16ToBytes_toInt16 (lo hi : Nat) (hlo : lo < 256) (hhi : hi < 256) :
    int16ToBytes (toInt16 lo hi) = [lo, hi] := by
  unfold int16ToBytes toInt16
  split <;> (simp only [List.cons.injEq, and_true]; omega)

theorem samplesToBytes_cons (q : ℚ) (s : List ℚ) :
    samplesToBytes (q :: s) = int16ToBytes (sampleToInt16 q) ++ samplesToBytes s := rfl

theorem vadRun_append (thr : ℚ) (k : Nat) (s : VadState) (xs ys : List Frame) :
    vadRun thr k s (xs ++ ys)
      = ((vadRun thr k (vadRun thr k s xs).1 ys).1,
         (vadRun thr k s xs).2 ++ (vadRun thr k (vadRun thr k s xs).1 ys).2) := by
  induction xs generalizing s with
  | nil => simp [vadRun]
  | cons f rest ih => simp [vadRun, ih]

theorem vadRun_idle_silent (thr : ℚ) (k c : Nat) (C : List Frame)
    (hC : ∀ f ∈ C, isSpeechFrame thr f = false) :
    vadRun thr k ⟨false, false, c⟩ C = (⟨false, false, c⟩, C.map fun _ => []) := by
  induction C with
  | nil => rfl
  | cons f rest ih =>
      have hf : isSpeechFrame thr f = false := hC f (by simp)
      simp [vadRun, vadStep, hf, ih (fun g hg => hC g (by simp [hg]))]

theorem vadRun_speaking_above (thr : ℚ) (k : Nat) (A : List Frame)
    (hA : ∀ f ∈ A, isSpeechFrame thr f = true) :
    vadRun thr k ⟨true, false, 0⟩ A = (⟨true, false, 0⟩, A.map fun f => [.audioData f]) := by
  induction A with
  | nil => rfl
  | cons f rest ih =>
      have hf : isSpeechFrame thr f = true := hA f (by simp)
      simp [vadRun, vadStep, hf, ih (fun g hg => hA g (by simp [hg]))]

theorem vadRun_speaking_silent (thr : ℚ) (k : Nat) (B : List Frame) :
    ∀ (c : Nat), B ≠ [] → c + B.length = k →
    (∀ f ∈ B, isSpeechFrame thr f = false) →
    vadRun thr k ⟨true, false, c⟩ B = (⟨false, false, 0⟩, silentTrace B) := by
  induction B with
  | nil => intro c hne; exact absurd rfl hne
  | cons f rest ih =>
      intro c _ hlen hB
      have hf : isSpeechFrame thr f = false := hB f (by simp)
      cases rest with
      | nil =>
          have hk : k ≤ c + 1 := by simp at hlen; omega
          simp [vadRun, vadStep, hf, hk, silentTrace]
      | cons g rest₂ =>
          have hlt : ¬ k ≤ c + 1 := by simp at hlen; omega
          have hrec := ih (c + 1) (by simp)
            (by simp at hlen ⊢; omega) (fun x hx => hB x (by simp [hx]))
          simp [vadRun, vadStep, hf, hlt, silentTrace] at hrec ⊢
          simp [hrec]

theorem sumSquares_replicate (n : Nat) (q : ℚ) :
    sumSquares (List.replicate n q) = n * (q * q) := by
  induction n with
  | zero => simp [sumSquares]
  | succ m ih =>
      simp only [sumSquares, List.replicate_succ, List.map_cons, List.sum_cons] at ih ⊢
      rw [ih]
      push_cast
      ring

/-- C4: processing (while not paused) a contiguous run of above-threshold
frames `f0 :: A` from `Idle`, followed by `requiredSilenceFrames`-many
below-threshold frames `B` and further silence `C`, emits `SpeechStart`
exactly once, on the first frame of the run; emits `SpeechEnd` exactly once,
on the last frame of `B` — that is, `requiredSilenceFrames` frames after the
last above-threshold frame — and forwards every frame from the start of the
run through the `SpeechEnd` frame as audio payload, nothing afterwards. -/
theorem vad_speech_boundaries (thr : ℚ) (k : Nat) (f0 : Frame) (A B C : List Frame)
    (hf0 : isSpeechFrame thr f0 = true)
    (hA : ∀ f ∈ A, isSpeechFrame thr f = true)
    (hB : ∀ f ∈ B, isSpeechFrame thr f = false)
    (hC : ∀ f ∈ C, isSpeechFrame thr f = false)
    (hk : 1 ≤ k) (hBk : B.length = k) :
    vadRun thr k ⟨false, false, 0⟩ (f0 :: (A ++ B ++ C))
      = (⟨false, false, 0⟩,
          [.speechStart, .audioData f0]
            :: (A.map (fun f => [.audioData f])
                ++ (silentTrace B ++ C.map (fun _ => [])))) := by
  have hBne : B ≠ [] := by
    intro h
    rw [h] at hBk
    simp at hBk
    omega
  have hBrun := vadRun_speaking_silent thr k B 0 hBne (by omega) hB
  have hArun := vadRun_speaking_above thr k A hA
  have hCrun := vadRun_idle_silent thr k 0 C hC
  have assoc : A ++ B ++ C = A ++ (B ++ C) := by simp
  rw [assoc]
  have h1 : vadRun thr k ⟨false, false, 0⟩ [f0]
      = (⟨true, false, 0⟩, [[.speechStart, .audioData f0]]) := by
    simp [vadRun, vadStep, hf0]
  rw [show f0 :: (A ++ (B ++ C)) = [f0] ++ (A ++ (B ++ C)) from rfl]
  rw [vadRun_append, h1]
  dsimp only
  rw [vadRun_append, hArun]
  dsimp only
  rw [vadRun_append, hBrun]
  dsimp only
  rw [hCrun]
  simp

/-- The frame of the claim's scenario: 128 samples of constant value `1/20`,
whose RMS is exactly `0.05`. -/
def speechFrame : Frame := List.replicate 128 (1 / 20)

/-- A frame of 128 zero samples (RMS `0.0`). -/
def silenceFrame : Frame := List.replicate 128 0

theorem isSpeechFrame_speechFrame : isSpeechFrame (3 / 200) speechFrame = true := by
  rw [isSpeechFrame, speechFrame, decide_eq_true_eq, sumSquares_replicate,
    List.length_replicate]
  norm_num

theorem isSpeechFrame_silenceFrame : isSpeechFrame (3 / 200) silenceFrame = false := by
  rw [isSpeechFrame, silenceFrame, decide_eq_false_iff_not, sumSquares_replicate,
    List.length_replicate]
  norm_num

/-- C4 witness: the claim's scenario, threshold `0.015 = 3/200` and
`requiredSilenceFrames = 188`: frames 0–99 at RMS `0.05`, frames 100–287 at
RMS `0.0` — `SpeechStart` on frame 0, `SpeechEnd` on frame 287, each exactly
once, every one of the 288 frames forwarded. -/
theorem vad_speech_boundaries_witness :
    isSpeechFrame (3 / 200) speechFrame = true
  ∧ (∀ f ∈ List.replicate 99 speechFrame, isSpeechFrame (3 / 200) f = true)
  ∧ (∀ f ∈ List.replicate 188 silenceFrame, isSpeechFrame (3 / 200) f = false)
  ∧ vadRun (3 / 200) 188 ⟨false, false, 0⟩
      (speechFrame :: (List.replicate 99 speechFrame ++ List.replicate 188 silenceFrame ++ []))
      = (⟨false, false, 0⟩,
          [.speechStart, .audioData speechFrame]
            :: ((List.replicate 99 speechFrame).map (fun f => [.audioData f])
                ++ (silentTrace (List.replicate 188 silenceFrame)
                    ++ ([] : List Frame).map (fun _ => [])))) :=
  ⟨isSpeechFrame_speechFrame,
   fun f hf => by rw [List.eq_of_mem_replicate hf]; exact isSpeechFrame_speechFrame,
   fun f hf => by rw [List.eq_of_mem_replicate hf]; exact isSpeechFrame_silenceFrame,
   vad_speech_boundaries (3 / 200) 188 speechFrame _ _ _
     isSpeechFrame_speechFrame
     (fun f hf => by rw [List.eq_of_mem_replicate hf]; exact isSpeechFrame_speechFrame)
     (fun f hf => by rw [List.eq_of_mem_replicate hf]; exact isSpeechFrame_silenceFrame)
     (fun f hf => by simp at hf)
     (by omega) (by rw [List.length_replicate])⟩

/-- C1: the `end_of_utterance` handler combines the buffered chunks by first
decoding each from base64 and then concatenating the binary buffers; the bytes
the upstream model receives (the strict base64 decoding of the submitted
`combinedAudioData`) are exactly the concatenation of the decoded bytes of
every buffered chunk, in arrival order. -/
theorem end_of_utterance_binary_concat (byteChunks : List (List Nat))
    (h : ∀ c ∈ byteChunks, ∀ b ∈ c, b < 256) :
    base64DecodeBytes (combineAudioChunks (byteChunks.map base64EncodeBytes))
      = some byteChunks.flatten := by
  have hmap : (byteChunks.map base64EncodeBytes).map (fun c => (base64DecodeBytes c).getD [])
      = byteChunks := by
    rw [List.map_map]
    conv_rhs => rw [← List.map_id byteChunks]
    exact List.map_congr_left
      (fun c hc => by simp [Function.comp, base64_decode_encode c (h c hc)])
  unfold combineAudioChunks decodedJoin
  rw [hmap]
  refine base64_decode_encode _ (fun b hb => ?_)
  obtain ⟨c, hc, hbc⟩ := List.mem_flatten.mp hb
  exact h c hc b hbc

/-- C1 witness: two concrete chunks (a two-byte one and a one-byte one, so
both base64 paddings occur). -/
theorem end_of_utterance_binary_concat_witness :
    (∀ c ∈ ([[0, 255], [16]] : List (List Nat)), ∀ b ∈ c, b < 256)
  ∧ base64DecodeBytes
      (combineAudioChunks (([[0, 255], [16]] : List (List Nat)).map base64EncodeBytes))
      = some ([[0, 255], [16]] : List (List Nat)).flatten :=
  ⟨by decide, end_of_utterance_binary_concat [[0, 255], [16]] (by decide)⟩

/-- C7: decoding a little-endian 16-bit PCM buffer to normalized floats
(divide by 32768) and re-encoding with floor-and-clamp reproduces the buffer
exactly: `samplesToBytes (bytesToSamples x) = x` on the non-resampling path. -/
theorem codec_round_trip (bytes : List Nat) (hb : ∀ b ∈ bytes, b < 256)
    (he : bytes.length % 2 = 0) :
    (bytesToSamples bytes).map samplesToBytes = some bytes := by
  induction bytes using bytesToSamples.induct with
  | case1 => rfl
  | case2 b => simp at he
  | case3 lo hi rest ih =>
      have hlo : lo < 256 := hb lo (by simp)
      have hhi : hi < 256 := hb hi (by simp)
      have hrest : ∀ b ∈ rest, b < 256 := fun b hbm => hb b (by simp [hbm])
      have he₂ : rest.length % 2 = 0 := by simp at he; omega
      obtain ⟨sr, hsr, hmap⟩ := Option.map_eq_some'.mp (ih hrest he₂)
      rw [show bytesToSamples (lo :: hi :: rest)
            = (bytesToSamples rest).map (fun s => ((toInt16 lo hi : ℚ) / 32768) :: s) from rfl,
          hsr]
      simp only [Option.map_some', Option.some.injEq, samplesToBytes_cons]
      rw [sampleToInt16_roundtrip lo hi hlo hhi, int16ToBytes_toInt16 lo hi hlo hhi, hmap]
      rfl

/-- C7 witness: the buffer of samples `0`, `32767`, `-32768`. -/
theorem codec_round_trip_witness :
    (∀ b ∈ ([0, 0, 255, 127, 0, 128] : List Nat), b < 256)
  ∧ ([0, 0, 255, 127, 0, 128] : List Nat).length % 2 = 0
  ∧ (bytesToSamples [0, 0, 255, 127, 0, 128]).map samplesToBytes
      = some [0, 0, 255, 127, 0, 128] :=
  ⟨by decide, by decide, codec_round_trip [0, 0, 255, 127, 0, 128] (by decide) (by decide)⟩

/-- C8: the linear-interpolation resampler always produces exactly
`⌊inputLength · targetRate / sourceRate⌋` samples; in particular
`resample x 16000 24000` has length `⌊x.length · 24000 / 16000⌋`. -/
theorem resample_length (x : List ℚ) (sourceRate targetRate : ℕ) :
    (resample x sourceRate targetRate).length = x.length * targetRate / sourceRate
  ∧ (resample x 16000 24000).length = x.length * 24000 / 16000 := by
  constructor <;> simp [resample]

/-- A concrete client state in which the tutor is audibly speaking: one chunk
in flight, two more queued. -/
def bargeInState : ClientState :=
  { audioQueue := [[1 / 2], [3 / 4]], isPlaying := true, isTutorSpeaking := true,
    isAiCurrentlySpeaking := true, isUserSpeaking := false, playing := some [1 / 4] }

/-- C5 counterexample: on a `SpeechStart` during active playback,
`stopAllPlayback` only clears the queue — the in-flight
`AudioBufferSourceNode` is never told to `stop()`, so the chunk being rendered
keeps playing, contradicting "any in-flight chunk is stopped immediately". -/
theorem barge_in_does_not_stop_inflight :
    (onSpeechStart bargeInState).playing = some [1 / 4]
  ∧ ¬ (onSpeechStart bargeInState).playing = none := by
  have h : (onSpeechStart bargeInState).playing = some [1 / 4] := rfl
  exact ⟨h, by rw [h]; simp⟩

/-- C5 (amended): a `SpeechStart` during active playback clears the queue (so
no queued chunk is ever rendered afterwards) and stops the playback loop; the
in-flight chunk, however, is left playing to completion, and once it ends on
its own nothing resumes — the remaining speech is discarded, not paused. -/
theorem barge_in_clears_queue (s : ClientState)
    (h : (s.isTutorSpeaking || s.isAiCurrentlySpeaking) = true) :
    (onSpeechStart s).audioQueue = []
  ∧ (onSpeechStart s).isPlaying = false
  ∧ (onSpeechStart s).playing = s.playing
  ∧ (chunkEnded (onSpeechStart s)).playing = none
  ∧ (chunkEnded (onSpeechStart s)).isPlaying = false := by
  simp [onSpeechStart, h, stopAllPlayback, chunkEnded, processPlaybackQueue]

/-- C5 witness: the amended theorem applied to `bargeInState`. -/
theorem barge_in_clears_queue_witness :
    (bargeInState.isTutorSpeaking || bargeInState.isAiCurrentlySpeaking) = true
  ∧ ((onSpeechStart bargeInState).audioQueue = []
      ∧ (onSpeechStart bargeInState).isPlaying = false
      ∧ (onSpeechStart bargeInState).playing = bargeInState.playing
      ∧ (chunkEnded (onSpeechStart bargeInState)).playing = none
      ∧ (chunkEnded (onSpeechStart bargeInState)).isPlaying = false) :=
  ⟨by decide, barge_in_clears_queue bargeInState (by decide)⟩

/-- C10: while the client considers the user to be speaking, a server `audio`
message is discarded on receipt — the handler returns with the state (and in
particular the playback queue) completely unchanged, so the chunk can never be
played later. -/
theorem server_audio_dropped_while_user_speaking (s : ClientState) (payload : List Nat)
    (h : s.isUserSpeaking = true) :
    onServerAudio s payload = s := by
  simp [onServerAudio, h]

/-- A client state during user speech. -/
def userSpeakingState : ClientState :=
  { audioQueue := [], isPlaying := false, isTutorSpeaking := false,
    isAiCurrentlySpeaking := false, isUserSpeaking := true, playing := none }

/-- C10 witness: a concrete valid `audio` payload arriving during user speech. -/
theorem server_audio_dropped_while_user_speaking_witness :
    userSpeakingState.isUserSpeaking = true
  ∧ onServerAudio userSpeakingState [16, 0, 64, 64] = userSpeakingState :=
  ⟨by decide, server_audio_dropped_while_user_speaking userSpeakingState [16, 0, 64, 64] (by decide)⟩

/-- A concrete pending screenshot. -/
def sampleImage : ScreenImage := ⟨"image/png", "iVBOR"⟩

/-- The parsed form of the tool-call text
`tool_use = get_screenshot_analysis`, `question_for_vision_model = ...`. -/
def toolCallJson : Json :=
  .obj [("tool_use", .str "get_screenshot_analysis"),
        ("question_for_vision_model", .str "what is on the screen")]

/-- A model response whose single part is the recognized tool-call text. -/
def toolCallResponse : ModelResponse :=
  ⟨some [{ text := some ⟨"tool call text", some toolCallJson⟩ }], false⟩

/-- A session with a pending screenshot and an empty utterance buffer. -/
def sessionWithImage : ConnState := ⟨[], some sampleImage, true⟩

/-- C2 (code bug, evaluated at the failing input): processing a recognized
vision tool-call with a pending image performs exactly one vision request, but
the session's pending image is **not** cleared — `turnImage = null` only
rebinds the function parameter (and only on the success path; on the failure
path not even the local value is cleared) — so a second turn reuses the old
image in a second vision request. -/
theorem pending_image_not_cleared :
    (processModelResponse sessionWithImage toolCallResponse (.ok "analysis")).1.turnImage
        = some sampleImage
  ∧ (processModelResponse sessionWithImage toolCallResponse (.ok "analysis")).2
        = [.visionRequest sampleImage "what is on the screen", .speak "analysis"]
  ∧ (handleAudioModelResponse toolCallResponse (some sampleImage) .error).2
        = some sampleImage
  ∧ (processModelResponse
        (processModelResponse sessionWithImage toolCallResponse (.ok "analysis")).1
        toolCallResponse (.ok "second analysis")).2
        = [.visionRequest sampleImage "what is on the screen", .speak "second analysis"] := by
  refine ⟨rfl, ?_, rfl, ?_⟩ <;> decide

/-- A model response whose single part is valid JSON (`42`) that does not
match the tool-call shape. -/
def nonToolJsonResponse : ModelResponse :=
  ⟨some [{ text := some ⟨"42", some (.num 42)⟩ }], false⟩

/-- C3 counterexample: a text part that parses as well-formed JSON but does
not match the tool-call shape is silently dropped — no effect at all is
emitted, in particular it is **not** spoken via the text-to-speech path. -/
theorem nonmatching_json_text_dropped :
    (handleAudioModelResponse nonToolJsonResponse none .error).1 = []
  ∧ ∀ e ∈ (handleAudioModelResponse nonToolJsonResponse none .error).1,
      e ≠ SrvEffect.speak "42" := by
  constructor <;> decide

/-- A response with a single text part (used to state the dispatch theorem). -/
def mkTextResponse (raw : String) (parsed : Option Json) (inline : Option String)
    (tc : Bool) : ModelResponse :=
  ⟨some [{ text := some ⟨raw, parsed⟩, inlineData := inline }], tc⟩

/-- C3 (amended): text whose `JSON.parse` throws — and JSON `null`, whose
`tool_use` access throws a `TypeError` into the same `catch` — is treated as
conversational content and spoken via the text-to-speech path; text that
parses to any other JSON value not matching the tool-call shape is silently
dropped (the handler falls through to the inline-audio / turn-complete
handling and never speaks it). -/
theorem text_part_dispatch (raw : String) (parsed : Option Json) (inline : Option String)
    (tc : Bool) (img : Option ScreenImage) (vision : VisionOutcome) :
    ((parsed = none ∨ parsed = some .null) →
        handleAudioModelResponse (mkTextResponse raw parsed inline tc) img vision
          = ([.speak raw], img))
  ∧ (∀ v, parsed = some v → v ≠ Json.null → isVisionToolCall v = false →
        handleAudioModelResponse (mkTextResponse raw parsed inline tc) img vision
          = ((match inline with
              | some d => [SrvEffect.sendAudioToClient d]
              | none => ([] : List SrvEffect))
              ++ (if tc then [SrvEffect.sendTurnComplete] else []), img)) := by
  constructor
  · rintro (rfl | rfl) <;> rfl
  · rintro v rfl hnull htool
    cases v with
    | null => exact absurd rfl hnull
    | bool b => simp [handleAudioModelResponse, mkTextResponse, afterTextEffects, htool]
    | num n => simp [handleAudioModelResponse, mkTextResponse, afterTextEffects, htool]
    | str s => simp [handleAudioModelResponse, mkTextResponse, afterTextEffects, htool]
    | arr l => simp [handleAudioModelResponse, mkTextResponse, afterTextEffects, htool]
    | obj l => simp [handleAudioModelResponse, mkTextResponse, afterTextEffects, htool]

/-- C3 witness: the two behaviours at concrete inputs — unparseable text is
spoken, the parseable non-tool JSON `42` is dropped. -/
theorem text_part_dispatch_witness :
    handleAudioModelResponse (mkTextResponse "hello there" none none false) none .error
      = ([.speak "hello there"], none)
  ∧ isVisionToolCall (.num 42) = false
  ∧ handleAudioModelResponse (mkTextResponse "42" (some (.num 42)) none false) none .error
      = ((match (none : Option String) with
          | some d => [SrvEffect.sendAudioToClient d]
          | none => ([] : List SrvEffect))
          ++ (if false then [SrvEffect.sendTurnComplete] else []), none) :=
  ⟨(text_part_dispatch "hello there" none none false none .error).1 (Or.inl rfl),
   by decide,
   (text_part_dispatch "42" (some (.num 42)) none false none .error).2 (.num 42) rfl
     (fun h => Json.noConfusion h) (by decide)⟩

/-- C6: an `end_of_utterance` received while the utterance buffer is empty is
silently ignored — no upstream call, nothing sent to the client, and the
session state (utterance buffer and pending image included) is unchanged. -/
theorem empty_utterance_ignored (s : ConnState) (h : s.turnAudioBuffer = []) :
    handleClientMessage s .endOfUtterance = (s, []) := by
  simp [handleClientMessage, h]

/-- C6 witness: a freshly connected session. -/
theorem empty_utterance_ignored_witness :
    (⟨[], none, false⟩ : ConnState).turnAudioBuffer = []
  ∧ handleClientMessage ⟨[], none, false⟩ .endOfUtterance = (⟨[], none, false⟩, []) :=
  ⟨rfl, empty_utterance_ignored ⟨[], none, false⟩ rfl⟩

/-- C9: `speakText` never lets an exception escape to its caller — for every
environment (connect failure, session failing to reach the open state, send
failure) the outcome is a normal return, and on every failure the only effect
is the log entry: nothing is sent toward the model, so the client hears
silence rather than losing the connection. -/
theorem speakText_never_throws (text : String) (env : TtsEnv) :
    (speakText text env).2 = false
  ∧ (∀ e, (speakTextAttempt text env).2 = some e →
        (speakText text env).1 = [.logError e]) := by
  obtain ⟨ce, op, fs, se⟩ := env
  cases ce <;> cases op <;> cases se <;>
    simp [speakText, speakTextAttempt]

/-- An environment in which `genAI.live.connect` rejects. -/
def failingTtsEnv : TtsEnv := ⟨some "connect refused", false, "closed", none⟩

/-- C9 witness: a concrete connect failure is caught; the only effect is the
log entry. -/
theorem speakText_never_throws_witness :
    (speakText "hello" failingTtsEnv).2 = false
  ∧ (speakText "hello" failingTtsEnv).1 = [.logError "connect refused"] :=
  ⟨(speakText_never_throws "hello" failingTtsEnv).1,
   (speakText_never_throws "hello" failingTtsEnv).2 "connect refused" rfl⟩

end VoyageTutor
